import Mathlib

/-!
Shallow embedding of `src/lambda/youtube-downloader.ts` — the
download-and-commit pipeline of the youtube-file-sync repository.

The TypeScript handler consumes a batch of SQS records, deduplicates
video ids against a DynamoDB table, fetches content with `yt-dlp`
through an ordered list of player-client strategies, uploads the payload
to S3 and conditionally records completion.  External effects (the
subprocess, S3, DynamoDB, the clock) are supplied as explicit
environment values; every function below is a direct translation of the
corresponding TypeScript function.
-/

namespace YtSync

/-- Startup configuration read from the environment
(`BUCKET_NAME`, `TABLE_NAME`, `COOKIE_S3_KEY`, `COOKIE_MAX_AGE_HOURS`),
validated non-empty by `validateEnv` at module load. -/
structure Config where
  bucketName : String
  tableName : String
  cookieS3Key : String
  cookieMaxAgeHours : Nat
  deriving Repr, DecidableEq

/-- Local filesystem state relevant to the cookie cache:
`/tmp/cookies.txt` (modelled by its mtime in milliseconds when present)
and the temporary download path `/tmp/cookies.txt.tmp`. -/
structure CookieState where
  localMtimeMs : Option Int
  tmpExists : Bool
  deriving Repr, DecidableEq

/-- External world seen by one call of `ensureCookieFileIfConfigured`:
the current clock (`Date.now()`) and whether the S3
`GetObjectCommand` / stream / rename sequence succeeds. -/
structure CookieEnv where
  nowMs : Int
  s3ReadOk : Bool
  deriving Repr, DecidableEq

/-- `ensureCookieFileIfConfigured` (youtube-downloader.ts:62-101).
Returns the new filesystem state together with the number of reads of
the authoritative S3 cookie object (the `GetObjectCommand` is sent once
whenever the cached copy is absent or stale, whether or not it
succeeds).  The code's freshness test is
`(Date.now() - stat.mtimeMs) / (1000*60*60) < COOKIE_MAX_AGE_HOURS`;
dividing by the positive constant preserves order, so it is embedded
exactly as `nowMs - mtimeMs < maxAgeHours * 3600000`. -/
def ensureCookieFileIfConfigured (cfg : Config) (st : CookieState)
    (env : CookieEnv) : CookieState × Nat :=
  if cfg.cookieS3Key = "" ∨ cfg.bucketName = "" then
    -- cookie configuration not set: skip
    (st, 0)
  else
    match st.localMtimeMs with
    | some mtime =>
      if env.nowMs - mtime < (cfg.cookieMaxAgeHours : Int) * 3600000 then
        -- fresh cached copy: reuse, no external read
        (st, 0)
      else if env.s3ReadOk then
        -- download to tmp path, rename into place, chmod 600
        ({ localMtimeMs := some env.nowMs, tmpExists := false }, 1)
      else
        -- catch: warn and delete the partial tmp file
        ({ st with tmpExists := false }, 1)
    | none =>
      if env.s3ReadOk then
        ({ localMtimeMs := some env.nowMs, tmpExists := false }, 1)
      else
        ({ st with tmpExists := false }, 1)

/-- A character kept unchanged by the sanitizer: the regex class
`[a-z0-9 -]` under the `i` flag, i.e. ASCII letters of either case,
digits, space and hyphen. -/
def isAllowedChar (c : Char) : Bool :=
  ('a' ≤ c && c ≤ 'z') || ('A' ≤ c && c ≤ 'Z') ||
  ('0' ≤ c && c ≤ '9') || c = ' ' || c = '-'

/-- `title.replace(/[^a-z0-9 -]/gi, '_').substring(0, 100)`
(youtube-downloader.ts:252).  After the replacement every character is
ASCII, so JavaScript's UTF-16 `substring(0, 100)` coincides with taking
the first 100 characters. -/
def sanitizeTitle (t : String) : String :=
  String.mk (((t.data.map (fun c => if isAllowedChar c then c else '_'))).take 100)

/-- `` `videos/${safeTitle}_${videoId}.mp4` `` (youtube-downloader.ts:253). -/
def makeS3Key (title videoId : String) : String :=
  "videos/" ++ sanitizeTitle title ++ "_" ++ videoId ++ ".mp4"

/-- `` `https://www.youtube.com/watch?v=${videoId}` `` (youtube-downloader.ts:255). -/
def videoUrl (videoId : String) : String :=
  "https://www.youtube.com/watch?v=" ++ videoId

/-- Structured log/console events emitted by the handler; each
constructor corresponds to one `log` / `console` call site. -/
inductive LogEvent where
  | batchStart (recordCount : Nat)
  | invalidMessage (messageId : String)
  | skipAlready (videoId : String)
  | ytdlpError (url playerClient s3Key : String)
  | strategyWarn (playerClient msg : String)
  | downloadSuccess (videoId : String)
  | downloadError (videoId messageId : String)
  | batchComplete
  deriving Repr, DecidableEq

/-- External world seen by one `attemptDownload` call: the cookie-cache
environment, whether `spawn` itself errors (the child `error` event),
the `yt-dlp` exit code, the state of the temporary output file after
the subprocess returns (`none` = not created, `some size` = its byte
size), and whether the S3 multipart upload completes. -/
structure AttemptEnv where
  cookieEnv : CookieEnv
  spawnErr : Bool
  exitCode : Int
  fileAfter : Option Nat
  uploadOk : Bool
  deriving Repr, DecidableEq

/-- The `try` block of `attemptDownload` (youtube-downloader.ts:132-204)
as an error value: spawn error, non-zero exit, `statSync` on a missing
file, the explicit empty-file rejection, then the upload. -/
def attemptOutcome (env : AttemptEnv) : Except String Unit :=
  if env.spawnErr then .error "spawn yt-dlp failed"
  else if env.exitCode ≠ 0 then
    .error ("yt-dlp exited with code " ++ toString env.exitCode)
  else
    match env.fileAfter with
    | none => .error "ENOENT: no such file or directory, stat"
    | some size =>
      if size = 0 then .error "Downloaded file is empty"
      else if env.uploadOk then .ok () else .error "S3 upload failed"

/-- Whether the attempt reaches and completes the upload. -/
def attemptSucceeds (env : AttemptEnv) : Bool :=
  match attemptOutcome env with
  | .ok _ => true
  | .error _ => false

/-- Whether the attempt reaches the `Upload` call at all (exit 0,
output file present and non-empty) — an upload is then started even if
it does not complete. -/
def attemptStartsUpload (env : AttemptEnv) : Bool :=
  !env.spawnErr && env.exitCode == 0 &&
    (match env.fileAfter with
     | none => false
     | some size => !(size == 0))

/-- The `finally` block (youtube-downloader.ts:215-218):
`if (fs.existsSync(tempFile)) fs.unlinkSync(tempFile)`. -/
def cleanupTemp (fileState : Option Nat) : Option Nat :=
  match fileState with
  | some _ => none
  | none => none

/-- Observable result of one `attemptDownload` call. -/
structure AttemptResult where
  result : Except String Unit
  cookie : CookieState
  cookieReads : Nat
  /-- player clients passed to spawned `yt-dlp` subprocesses, in order -/
  subprocess : List String
  /-- durable uploads that completed (`await upload.done()` returned) -/
  uploads : List (String × String)
  /-- uploads that were started, completed or not -/
  uploadsStarted : List (String × String)
  logs : List LogEvent
  /-- the temporary payload file state after the `finally` block -/
  tempFileAfter : Option Nat
  deriving Repr

/-- `attemptDownload` (youtube-downloader.ts:124-219): ensure the
cookie file, spawn `yt-dlp` with the given player client writing to a
temp file, verify a non-empty result, upload to S3; on any failure log
the error (with URL, player client and key) and rethrow; in all cases
delete the temp file in the `finally` block. -/
def attemptDownload (cfg : Config) (cst : CookieState)
    (vUrl s3Key playerClient : String) (env : AttemptEnv) : AttemptResult :=
  let ensured := ensureCookieFileIfConfigured cfg cst env.cookieEnv
  { result := attemptOutcome env
    cookie := ensured.1
    cookieReads := ensured.2
    subprocess := [playerClient]
    uploads := if attemptSucceeds env then [(s3Key, playerClient)] else []
    uploadsStarted := if attemptStartsUpload env then [(s3Key, playerClient)] else []
    logs := if attemptSucceeds env then []
            else [.ytdlpError vUrl playerClient s3Key]
    tempFileAfter := cleanupTemp env.fileAfter }

/-- The fixed ordered strategy list
`['ios', 'ios,web', 'web', 'android_creator']` (youtube-downloader.ts:108). -/
def clientStrategies : List String := ["ios", "ios,web", "web", "android_creator"]

/-- `clientStrategies[clientStrategies.length - 1]`, the value the loop
compares against to decide whether to rethrow. -/
def lastClient : String := clientStrategies.getLastD ""

/-- Observable result of one `downloadToS3` call. -/
structure FetchResult where
  result : Except String Unit
  cookie : CookieState
  cookieReads : Nat
  subprocess : List String
  uploads : List (String × String)
  uploadsStarted : List (String × String)
  logs : List LogEvent
  deriving Repr

/-- The `for (const client of clientStrategies)` loop of `downloadToS3`
(youtube-downloader.ts:110-120).  `envs i` is the external world of the
i-th attempt.  A successful attempt returns immediately; a failed one
logs a warning with the client name and either rethrows (when the
client is the last strategy) or falls through to the next strategy.
The `[]` base case is the loop running off the end, which in the
TypeScript returns normally (it is unreachable for the non-empty
`clientStrategies`). -/
def fetchLoop (cfg : Config) (vUrl s3Key : String) (envs : Nat → AttemptEnv) :
    List String → Nat → CookieState → FetchResult
  | [], _, cst =>
    { result := .ok (), cookie := cst, cookieReads := 0, subprocess := [],
      uploads := [], uploadsStarted := [], logs := [] }
  | client :: rest, i, cst =>
    let a := attemptDownload cfg cst vUrl s3Key client (envs i)
    match a.result with
    | .ok _ =>
      { result := .ok (), cookie := a.cookie, cookieReads := a.cookieReads,
        subprocess := a.subprocess, uploads := a.uploads,
        uploadsStarted := a.uploadsStarted, logs := a.logs }
    | .error msg =>
      if client = lastClient then
        { result := .error msg, cookie := a.cookie, cookieReads := a.cookieReads,
          subprocess := a.subprocess, uploads := a.uploads,
          uploadsStarted := a.uploadsStarted,
          logs := a.logs ++ [.strategyWarn client msg] }
      else
        let r := fetchLoop cfg vUrl s3Key envs rest (i + 1) a.cookie
        { result := r.result, cookie := r.cookie,
          cookieReads := a.cookieReads + r.cookieReads,
          subprocess := a.subprocess ++ r.subprocess,
          uploads := a.uploads ++ r.uploads,
          uploadsStarted := a.uploadsStarted ++ r.uploadsStarted,
          logs := a.logs ++ [.strategyWarn client msg] ++ r.logs }

/-- `downloadToS3` (youtube-downloader.ts:104-121). -/
def downloadToS3 (cfg : Config) (cst : CookieState) (vUrl s3Key : String)
    (envs : Nat → AttemptEnv) : FetchResult :=
  fetchLoop cfg vUrl s3Key envs clientStrategies 0 cst

/-- A completion record as written by the conditional `PutCommand`
(youtube-downloader.ts:258-270): item
`{videoId, title, s3Key, s3Bucket, downloadedAt}` keyed by `videoId`. -/
structure StoredItem where
  title : String
  s3Key : String
  s3Bucket : String
  downloadedAt : String
  deriving Repr, DecidableEq

/-- The DynamoDB completion table, keyed by video id. -/
abbrev CompletionTable := String → Option StoredItem

/-- Insert a completion record at a key. -/
def insertRecord (tbl : CompletionTable) (videoId : String)
    (item : StoredItem) : CompletionTable :=
  fun w => if w = videoId then some item else tbl w

/-- Result of `JSON.parse(record.body)` followed by the shape the
handler inspects.  `malformed` = `JSON.parse` throws; `nullish` = the
body parses to a falsy value (`!body`); `object vid title` = an object
whose `videoId` / `title` fields are `none` when absent (JavaScript
`undefined`). -/
inductive BodyParse where
  | malformed
  | nullish
  | object (videoId : Option String) (title : Option String)
  deriving Repr, DecidableEq

/-- One delivered SQS record. -/
structure SqsRecord where
  messageId : String
  body : BodyParse
  deriving Repr, DecidableEq

/-- `!body.videoId` (youtube-downloader.ts:230): true when the field is
absent or is the empty string (both falsy in JavaScript). -/
def videoIdFalsy : Option String → Bool
  | none => true
  | some s => s == ""

/-- External world consumed while processing one record: the per-attempt
environments handed to `downloadToS3`, a possible concurrent conditional
insert for the same video id landing between this handler's `GetCommand`
and its `PutCommand` (the conditional-write race), and the clock used
for `downloadedAt`. -/
structure ItemEnv where
  attemptEnvs : Nat → AttemptEnv
  interference : Option StoredItem
  nowIso : String

/-- The store contents the conditional `PutCommand` executes against: a
concurrent execution may have inserted a record for this id after our
`GetCommand` returned empty. -/
def applyInterference (tbl : CompletionTable) (videoId : String) :
    Option StoredItem → CompletionTable
  | none => tbl
  | some item =>
    match tbl videoId with
    | some _ => tbl
    | none => insertRecord tbl videoId item

/-- Handler-level mutable state: the shared completion table, the local
cookie-cache filesystem, the two CloudWatch counters
(`VideosDownloaded`, `DownloadFailures`), emitted log events, and the
accumulated subprocess / durable-upload traces. -/
structure HState where
  table : CompletionTable
  cookie : CookieState
  videosDownloaded : Nat
  downloadFailures : Nat
  logs : List LogEvent
  subprocess : List String
  uploads : List (String × String)

/-- Control flow after one record: fall through to the next record, or
execute the handler-level `return` (youtube-downloader.ts:235). -/
inductive Flow where
  | nextRecord
  | returnHandler
  deriving Repr, DecidableEq

/-- The per-item `catch` block (youtube-downloader.ts:282-292):
increment the `DownloadFailures` metric and emit a `DownloadError` log
with `videoId || '(unknown)'`. -/
def catchItemError (st : HState) (videoId messageId : String) : HState :=
  { st with downloadFailures := st.downloadFailures + 1,
            logs := st.logs ++ [.downloadError videoId messageId] }

/-- The body of the `for (const record of event.Records)` loop
(youtube-downloader.ts:224-293), one record at a time.

  * `JSON.parse` throwing is caught by the per-item `catch` with the
    `videoId` local still `''` (logged as `'(unknown)'`).
  * A falsy body or falsy `body.videoId` logs `InvalidMessage` and
    executes `return` — leaving the whole handler, not `continue`.
  * A `GetCommand` hit logs a skip and continues.
  * Otherwise `safeTitle` is computed; when the parsed body has no
    `title` field the destructured `title` local is `undefined` and
    `title.replace` throws a `TypeError`, caught by the per-item
    `catch` before any download is attempted.
  * On fetch success the conditional `PutCommand` runs against the
    store as it is at commit time; a `ConditionalCheckFailedException`
    (record already present) propagates to the same generic per-item
    `catch`.  On put success the `VideosDownloaded` metric and a
    `DownloadSuccess` log are emitted. -/
def processRecord (cfg : Config) (r : SqsRecord) (env : ItemEnv)
    (st : HState) : HState × Flow :=
  match r.body with
  | .malformed =>
    (catchItemError st "(unknown)" r.messageId, .nextRecord)
  | .nullish =>
    ({ st with logs := st.logs ++ [.invalidMessage r.messageId] }, .returnHandler)
  | .object vid title =>
    if videoIdFalsy vid then
      ({ st with logs := st.logs ++ [.invalidMessage r.messageId] }, .returnHandler)
    else
      let v := vid.getD ""
      match st.table v with
      | some _ =>
        ({ st with logs := st.logs ++ [.skipAlready v] }, .nextRecord)
      | none =>
        match title with
        | none =>
          -- TypeError: title.replace on undefined, before downloadToS3
          (catchItemError st v r.messageId, .nextRecord)
        | some t =>
          let s3Key := makeS3Key t v
          let fr := downloadToS3 cfg st.cookie (videoUrl v) s3Key env.attemptEnvs
          let st1 : HState :=
            { st with cookie := fr.cookie,
                      subprocess := st.subprocess ++ fr.subprocess,
                      uploads := st.uploads ++ fr.uploads,
                      logs := st.logs ++ fr.logs }
          match fr.result with
          | .error _ =>
            (catchItemError st1 v r.messageId, .nextRecord)
          | .ok _ =>
            let tableAtPut := applyInterference st1.table v env.interference
            match tableAtPut v with
            | some _ =>
              -- ConditionalCheckFailedException from the conditional put
              (catchItemError { st1 with table := tableAtPut } v r.messageId,
               .nextRecord)
            | none =>
              let item : StoredItem :=
                { title := t, s3Key := s3Key, s3Bucket := cfg.bucketName,
                  downloadedAt := env.nowIso }
              ({ st1 with table := insertRecord tableAtPut v item,
                          videosDownloaded := st1.videosDownloaded + 1,
                          logs := st1.logs ++ [.downloadSuccess v] },
               .nextRecord)

/-- Run the record loop over the batch; the `Bool` is true when the loop
reached its end (no handler-level `return` fired). -/
def runRecords (cfg : Config) :
    List (SqsRecord × ItemEnv) → HState → HState × Bool
  | [], st => (st, true)
  | (r, env) :: rest, st =>
    match processRecord cfg r env st with
    | (st', .nextRecord) => runRecords cfg rest st'
    | (st', .returnHandler) => (st', false)

/-- The SQS `handler` (youtube-downloader.ts:222-295): log `BatchStart`,
process each record, then log `BatchComplete` — which the mid-loop
`return` skips. -/
def handler (cfg : Config) (batch : List (SqsRecord × ItemEnv))
    (st : HState) : HState :=
  let st0 := { st with logs := st.logs ++ [.batchStart batch.length] }
  match runRecords cfg batch st0 with
  | (st1, true) => { st1 with logs := st1.logs ++ [.batchComplete] }
  | (st1, false) => st1

/-! ### Concrete values used by witnesses and counterexamples -/

/-- A concrete startup configuration (the CDK stack wires
`COOKIE_S3_KEY = 'secrets/cookies.txt'` and `COOKIE_MAX_AGE_HOURS = '168'`). -/
def cfgEx : Config :=
  { bucketName := "youtube-file-sync-videos-bucket", tableName := "StateTable",
    cookieS3Key := "secrets/cookies.txt", cookieMaxAgeHours := 168 }

/-- The empty completion table. -/
def emptyTable : CompletionTable := fun _ => none

/-- A cookie-cache filesystem with no cached copy. -/
def noCookie : CookieState := { localMtimeMs := none, tmpExists := false }

/-- Initial handler state over an empty store. -/
def st0Ex : HState :=
  { table := emptyTable, cookie := noCookie, videosDownloaded := 0,
    downloadFailures := 0, logs := [], subprocess := [], uploads := [] }

/-- An attempt environment in which everything succeeds. -/
def goodEnv : AttemptEnv :=
  { cookieEnv := { nowMs := 0, s3ReadOk := true }, spawnErr := false,
    exitCode := 0, fileAfter := some 1024, uploadOk := true }

/-- An attempt environment in which `yt-dlp` exits with code 1. -/
def badEnv : AttemptEnv :=
  { cookieEnv := { nowMs := 0, s3ReadOk := true }, spawnErr := false,
    exitCode := 1, fileAfter := none, uploadOk := true }

/-- A completion record as a concurrent execution would write it. -/
def raceItem : StoredItem :=
  { title := "My Title", s3Key := "videos/My Title_vid1.mp4",
    s3Bucket := "youtube-file-sync-videos-bucket",
    downloadedAt := "2026-10-11T00:00:00.000Z" }

/-! ### Helper lemmas -/

theorem attemptOutcome_ok (env : AttemptEnv) (h : attemptSucceeds env = true) :
    attemptOutcome env = .ok () := by
  unfold attemptSucceeds at h
  cases he : attemptOutcome env with
  | ok u => cases u; rfl
  | error m => rw [he] at h; simp at h

theorem attemptOutcome_err (env : AttemptEnv) (h : attemptSucceeds env = false) :
    ∃ m, attemptOutcome env = .error m := by
  unfold attemptSucceeds at h
  cases he : attemptOutcome env with
  | ok u => rw [he] at h; simp at h
  | error m => exact ⟨m, rfl⟩

theorem attemptStartsUpload_of_ok (env : AttemptEnv)
    (h : attemptSucceeds env = true) : attemptStartsUpload env = true := by
  rcases env with ⟨ce, sp, ec, fa, up⟩
  cases sp <;> cases up <;> rcases fa with _ | s <;>
    by_cases hec : ec = 0 <;>
      simp_all [attemptSucceeds, attemptOutcome, attemptStartsUpload] <;>
        by_cases hs : s = 0 <;> simp_all

/-! ### C6 — credential-cache freshness -/

/-- C6: with a cookie configured and a cached local copy of mtime `m`,
a strictly fresh copy (`now − m < maxAge·3600000`, the exact embedding
of `ageHours < COOKIE_MAX_AGE_HOURS`) is reused with zero reads of the
authoritative S3 object, and a copy at or beyond the max age triggers
exactly one refresh read. -/
theorem claim_C6 (cfg : Config) (st : CookieState) (env : CookieEnv) (m : Int)
    (hk : cfg.cookieS3Key ≠ "") (hb : cfg.bucketName ≠ "")
    (hm : st.localMtimeMs = some m) :
    (env.nowMs - m < (cfg.cookieMaxAgeHours : Int) * 3600000 →
      ensureCookieFileIfConfigured cfg st env = (st, 0)) ∧
    ((cfg.cookieMaxAgeHours : Int) * 3600000 ≤ env.nowMs - m →
      (ensureCookieFileIfConfigured cfg st env).2 = 1) := by
  refine ⟨fun h => ?_, fun h => ?_⟩
  · simp [ensureCookieFileIfConfigured, hk, hb, hm, h]
  · have hnl : ¬ (env.nowMs - m < (cfg.cookieMaxAgeHours : Int) * 3600000) :=
      not_lt.mpr h
    cases hs : env.s3ReadOk <;>
      simp [ensureCookieFileIfConfigured, hk, hb, hm, hnl, hs]

/-- C6 witness: at max-age 168h, a 166.67h-old copy is reused with no
read, and a 169h-old copy (`169·3600000 = 608400000` ms) triggers
exactly one refresh read. -/
theorem claim_C6_witness :
    ensureCookieFileIfConfigured cfgEx ⟨some 0, false⟩ ⟨600000000, true⟩ =
      (⟨some 0, false⟩, 0) ∧
    (ensureCookieFileIfConfigured cfgEx ⟨some 0, false⟩ ⟨608400000, true⟩).2 = 1 :=
  ⟨(claim_C6 cfgEx ⟨some 0, false⟩ ⟨600000000, true⟩ 0 (by decide) (by decide)
      rfl).1 (by norm_num [cfgEx]),
   (claim_C6 cfgEx ⟨some 0, false⟩ ⟨608400000, true⟩ 0 (by decide) (by decide)
      rfl).2 (by norm_num [cfgEx])⟩

/-! ### C8 — temp-file cleanup on every exit path -/

/-- C8: after any single download attempt — whatever the spawn result,
exit code, output-file state or upload outcome — the temporary payload
file no longer exists: the `finally`-block cleanup runs on every path. -/
theorem claim_C8 (cfg : Config) (cst : CookieState) (u k c : String)
    (env : AttemptEnv) :
    (attemptDownload cfg cst u k c env).tempFileAfter = none := by
  cases h : env.fileAfter <;> simp [attemptDownload, cleanupTemp, h]

/-! ### C9 — title sanitization -/

/-- C9: for every title, the sanitized component consists only of ASCII
letters, digits, space, hyphen or the replacement underscore, has
length at most 100, and the destination key is formed from the
sanitized title and the id. -/
theorem claim_C9 (t videoId : String) :
    (sanitizeTitle t).length ≤ 100 ∧
    ((sanitizeTitle t).data.all (fun c => isAllowedChar c || c == '_')) = true ∧
    makeS3Key t videoId = "videos/" ++ sanitizeTitle t ++ "_" ++ videoId ++ ".mp4" := by
  refine ⟨?_, ?_, rfl⟩
  · exact List.length_take_le 100 _
  · rw [List.all_eq_true]
    intro c hc
    have hc2 : c ∈ t.data.map (fun c => if isAllowedChar c then c else '_') :=
      List.take_subset _ _ hc
    rcases List.mem_map.mp hc2 with ⟨a, _, rfl⟩
    by_cases h : isAllowedChar a <;> simp [h]

/-! ### Fetch-loop step lemmas -/

theorem fetchLoop_ok_step (cfg : Config) (u k : String) (envs : Nat → AttemptEnv)
    (client : String) (rest : List String) (i : Nat) (cst : CookieState)
    (hok : attemptSucceeds (envs i) = true) :
    fetchLoop cfg u k envs (client :: rest) i cst =
      { result := .ok (),
        cookie := (ensureCookieFileIfConfigured cfg cst (envs i).cookieEnv).1,
        cookieReads := (ensureCookieFileIfConfigured cfg cst (envs i).cookieEnv).2,
        subprocess := [client], uploads := [(k, client)],
        uploadsStarted := [(k, client)], logs := [] } := by
  have ho := attemptOutcome_ok (envs i) hok
  simp [fetchLoop, attemptDownload, ho, hok, attemptStartsUpload_of_ok (envs i) hok]

theorem fetchLoop_fail_step (cfg : Config) (u k : String) (envs : Nat → AttemptEnv)
    (client : String) (rest : List String) (i : Nat) (cst : CookieState)
    (hfail : attemptSucceeds (envs i) = false) (hlast : ¬ client = lastClient) :
    (fetchLoop cfg u k envs (client :: rest) i cst).result =
      (fetchLoop cfg u k envs rest (i + 1)
        (ensureCookieFileIfConfigured cfg cst (envs i).cookieEnv).1).result ∧
    (fetchLoop cfg u k envs (client :: rest) i cst).subprocess =
      client :: (fetchLoop cfg u k envs rest (i + 1)
        (ensureCookieFileIfConfigured cfg cst (envs i).cookieEnv).1).subprocess ∧
    (fetchLoop cfg u k envs (client :: rest) i cst).uploads =
      (fetchLoop cfg u k envs rest (i + 1)
        (ensureCookieFileIfConfigured cfg cst (envs i).cookieEnv).1).uploads := by
  obtain ⟨m, hm⟩ := attemptOutcome_err (envs i) hfail
  simp [fetchLoop, attemptDownload, hm, hfail, hlast]

theorem fetchLoop_last_fail (cfg : Config) (u k : String) (envs : Nat → AttemptEnv)
    (client : String) (rest : List String) (i : Nat) (cst : CookieState)
    (hfail : attemptSucceeds (envs i) = false) (hlast : client = lastClient) :
    (∃ m, (fetchLoop cfg u k envs (client :: rest) i cst).result = .error m) ∧
    (fetchLoop cfg u k envs (client :: rest) i cst).subprocess = [client] ∧
    (fetchLoop cfg u k envs (client :: rest) i cst).uploads = [] := by
  obtain ⟨m, hm⟩ := attemptOutcome_err (envs i) hfail
  exact ⟨⟨m, by simp [fetchLoop, attemptDownload, hm, hfail, hlast]⟩,
    by simp [fetchLoop, attemptDownload, hm, hfail, hlast],
    by simp [fetchLoop, attemptDownload, hm, hfail, hlast]⟩

/-! ### C4 — strategy fallback order -/

/-- C4: when the attempts for strategies 1–3 fail and the attempt for
strategy 4 succeeds, `downloadToS3` returns success after exactly four
subprocess invocations in the fixed order
`ios, ios,web, web, android_creator`, and exactly one durable upload
occurs, attributed to `android_creator`. -/
theorem claim_C4 (cfg : Config) (cst : CookieState) (u k : String)
    (envs : Nat → AttemptEnv)
    (h0 : attemptSucceeds (envs 0) = false)
    (h1 : attemptSucceeds (envs 1) = false)
    (h2 : attemptSucceeds (envs 2) = false)
    (h3 : attemptSucceeds (envs 3) = true) :
    (downloadToS3 cfg cst u k envs).result = .ok () ∧
    (downloadToS3 cfg cst u k envs).subprocess =
      ["ios", "ios,web", "web", "android_creator"] ∧
    (downloadToS3 cfg cst u k envs).uploads = [(k, "android_creator")] := by
  have e0 := fetchLoop_fail_step cfg u k envs "ios"
    ["ios,web", "web", "android_creator"] 0 cst h0 (by decide)
  set c1 := (ensureCookieFileIfConfigured cfg cst (envs 0).cookieEnv).1 with hc1
  have e1 := fetchLoop_fail_step cfg u k envs "ios,web"
    ["web", "android_creator"] 1 c1 h1 (by decide)
  set c2 := (ensureCookieFileIfConfigured cfg c1 (envs 1).cookieEnv).1 with hc2
  have e2 := fetchLoop_fail_step cfg u k envs "web"
    ["android_creator"] 2 c2 h2 (by decide)
  set c3 := (ensureCookieFileIfConfigured cfg c2 (envs 2).cookieEnv).1 with hc3
  have e3 := fetchLoop_ok_step cfg u k envs "android_creator" [] 3 c3 h3
  refine ⟨?_, ?_, ?_⟩
  · show (fetchLoop cfg u k envs clientStrategies 0 cst).result = .ok ()
    rw [show clientStrategies = "ios" :: ["ios,web", "web", "android_creator"] from rfl,
      e0.1, e1.1, e2.1, e3]
  · show (fetchLoop cfg u k envs clientStrategies 0 cst).subprocess = _
    rw [show clientStrategies = "ios" :: ["ios,web", "web", "android_creator"] from rfl,
      e0.2.1, e1.2.1, e2.2.1, e3]
  · show (fetchLoop cfg u k envs clientStrategies 0 cst).uploads = _
    rw [show clientStrategies = "ios" :: ["ios,web", "web", "android_creator"] from rfl,
      e0.2.2, e1.2.2, e2.2.2, e3]

/-- C4 witness: strategies 1–3 exit with code 1, strategy 4 succeeds. -/
theorem claim_C4_witness :
    (downloadToS3 cfgEx noCookie "u" "k"
      (fun i => if i = 3 then goodEnv else badEnv)).result = .ok () ∧
    (downloadToS3 cfgEx noCookie "u" "k"
      (fun i => if i = 3 then goodEnv else badEnv)).subprocess =
      ["ios", "ios,web", "web", "android_creator"] ∧
    (downloadToS3 cfgEx noCookie "u" "k"
      (fun i => if i = 3 then goodEnv else badEnv)).uploads =
      [("k", "android_creator")] :=
  claim_C4 cfgEx noCookie "u" "k" (fun i => if i = 3 then goodEnv else badEnv)
    (by decide) (by decide) (by decide) (by decide)

/-! ### C5 — strategy exhaustion -/

theorem downloadToS3_all_fail (cfg : Config) (cst : CookieState) (u k : String)
    (envs : Nat → AttemptEnv)
    (hfail : ∀ i, attemptSucceeds (envs i) = false) :
    (∃ m, (downloadToS3 cfg cst u k envs).result = .error m) ∧
    (downloadToS3 cfg cst u k envs).subprocess =
      ["ios", "ios,web", "web", "android_creator"] ∧
    (downloadToS3 cfg cst u k envs).uploads = [] := by
  have e0 := fetchLoop_fail_step cfg u k envs "ios"
    ["ios,web", "web", "android_creator"] 0 cst (hfail 0) (by decide)
  set c1 := (ensureCookieFileIfConfigured cfg cst (envs 0).cookieEnv).1 with hc1
  have e1 := fetchLoop_fail_step cfg u k envs "ios,web"
    ["web", "android_creator"] 1 c1 (hfail 1) (by decide)
  set c2 := (ensureCookieFileIfConfigured cfg c1 (envs 1).cookieEnv).1 with hc2
  have e2 := fetchLoop_fail_step cfg u k envs "web"
    ["android_creator"] 2 c2 (hfail 2) (by decide)
  set c3 := (ensureCookieFileIfConfigured cfg c2 (envs 2).cookieEnv).1 with hc3
  have e3 := fetchLoop_last_fail cfg u k envs "android_creator" [] 3 c3
    (hfail 3) (by decide)
  obtain ⟨⟨m, hm⟩, hsub3, hup3⟩ := e3
  refine ⟨⟨m, ?_⟩, ?_, ?_⟩
  · show (fetchLoop cfg u k envs clientStrategies 0 cst).result = .error m
    rw [show clientStrategies = "ios" :: ["ios,web", "web", "android_creator"] from rfl,
      e0.1, e1.1, e2.1, hm]
  · show (fetchLoop cfg u k envs clientStrategies 0 cst).subprocess = _
    rw [show clientStrategies = "ios" :: ["ios,web", "web", "android_creator"] from rfl,
      e0.2.1, e1.2.1, e2.2.1, hsub3]
  · show (fetchLoop cfg u k envs clientStrategies 0 cst).uploads = []
    rw [show clientStrategies = "ios" :: ["ios,web", "web", "android_creator"] from rfl,
      e0.2.2, e1.2.2, e2.2.2, hup3]

/-- C5: when every strategy's attempt fails, `downloadToS3` propagates
an error to the handler after trying all four strategies, no durable
upload is completed, the item's completion table entry stays as it was
(no record is created), the failure counter is incremented and the item
terminates in the failed state (`nextRecord`, left to SQS redelivery). -/
theorem claim_C5 (cfg : Config) (st : HState) (mid v t now : String)
    (envs : Nat → AttemptEnv)
    (hv : v ≠ "") (h0 : st.table v = none)
    (hfail : ∀ i, attemptSucceeds (envs i) = false) :
    (∃ m, (downloadToS3 cfg st.cookie (videoUrl v) (makeS3Key t v) envs).result
      = .error m) ∧
    (processRecord cfg ⟨mid, .object (some v) (some t)⟩ ⟨envs, none, now⟩ st).1.table
      = st.table ∧
    (processRecord cfg ⟨mid, .object (some v) (some t)⟩ ⟨envs, none, now⟩ st).1.uploads
      = st.uploads ∧
    (processRecord cfg ⟨mid, .object (some v) (some t)⟩ ⟨envs, none, now⟩ st).1.downloadFailures
      = st.downloadFailures + 1 ∧
    (processRecord cfg ⟨mid, .object (some v) (some t)⟩ ⟨envs, none, now⟩ st).2
      = .nextRecord := by
  obtain ⟨⟨m, hres⟩, hsub, hup⟩ :=
    downloadToS3_all_fail cfg st.cookie (videoUrl v) (makeS3Key t v) envs hfail
  refine ⟨⟨m, hres⟩, ?_, ?_, ?_, ?_⟩ <;>
    simp [processRecord, videoIdFalsy, hv, h0, hres, hup, catchItemError]

/-- C5 witness: all four strategies exit with code 1 for a fresh id. -/
theorem claim_C5_witness :
    (∃ m, (downloadToS3 cfgEx st0Ex.cookie (videoUrl "vid1")
      (makeS3Key "My Title" "vid1") (fun _ => badEnv)).result = .error m) ∧
    (processRecord cfgEx ⟨"m1", .object (some "vid1") (some "My Title")⟩
      ⟨fun _ => badEnv, none, "now"⟩ st0Ex).1.table = st0Ex.table ∧
    (processRecord cfgEx ⟨"m1", .object (some "vid1") (some "My Title")⟩
      ⟨fun _ => badEnv, none, "now"⟩ st0Ex).1.uploads = st0Ex.uploads ∧
    (processRecord cfgEx ⟨"m1", .object (some "vid1") (some "My Title")⟩
      ⟨fun _ => badEnv, none, "now"⟩ st0Ex).1.downloadFailures
      = st0Ex.downloadFailures + 1 ∧
    (processRecord cfgEx ⟨"m1", .object (some "vid1") (some "My Title")⟩
      ⟨fun _ => badEnv, none, "now"⟩ st0Ex).2 = .nextRecord :=
  claim_C5 cfgEx st0Ex "m1" "vid1" "My Title" "now" (fun _ => badEnv)
    (by decide) rfl
    (fun _ => (by decide : attemptSucceeds badEnv = false))

/-! ### C7 — empty-output rejection -/

/-- C7: an attempt whose subprocess exits 0 but leaves a zero-byte file
is rejected — `Downloaded file is empty` — with exactly the same
observable handling as a non-zero exit: the failure is logged with the
strategy name, no upload is started or completed, and the temporary
file is deleted; the loop then reacts only to the error-ness of the
result, identically in both cases. -/
theorem claim_C7 (cfg : Config) (cst : CookieState) (u k c : String)
    (e1 e2 : AttemptEnv)
    (h1s : e1.spawnErr = false) (h1e : e1.exitCode = 0)
    (h1f : e1.fileAfter = some 0)
    (h2s : e2.spawnErr = false) (h2e : e2.exitCode ≠ 0) :
    (attemptDownload cfg cst u k c e1).result = .error "Downloaded file is empty" ∧
    ((attemptDownload cfg cst u k c e1).logs = [.ytdlpError u c k] ∧
     (attemptDownload cfg cst u k c e2).logs = [.ytdlpError u c k]) ∧
    ((attemptDownload cfg cst u k c e1).tempFileAfter = none ∧
     (attemptDownload cfg cst u k c e2).tempFileAfter = none) ∧
    ((attemptDownload cfg cst u k c e1).uploads = [] ∧
     (attemptDownload cfg cst u k c e2).uploads = []) ∧
    ((attemptDownload cfg cst u k c e1).uploadsStarted = [] ∧
     (attemptDownload cfg cst u k c e2).uploadsStarted = []) := by
  have ho1 : attemptOutcome e1 = .error "Downloaded file is empty" := by
    simp [attemptOutcome, h1s, h1e, h1f]
  have ho2 : attemptOutcome e2 =
      .error ("yt-dlp exited with code " ++ toString e2.exitCode) := by
    simp [attemptOutcome, h2s, h2e]
  have hs1 : attemptSucceeds e1 = false := by simp [attemptSucceeds, ho1]
  have hs2 : attemptSucceeds e2 = false := by simp [attemptSucceeds, ho2]
  have hu1 : attemptStartsUpload e1 = false := by
    simp [attemptStartsUpload, h1s, h1e, h1f]
  have hu2 : attemptStartsUpload e2 = false := by
    simp [attemptStartsUpload, h2s, h2e]
  refine ⟨?_, ⟨?_, ?_⟩, ⟨?_, ?_⟩, ⟨?_, ?_⟩, ⟨?_, ?_⟩⟩ <;>
    cases hf2 : e2.fileAfter <;>
      simp [attemptDownload, ho1, ho2, hs1, hs2, hu1, hu2, h1f, hf2, cleanupTemp]

/-- C7 witness: exit 0 with a zero-byte file versus exit 1. -/
theorem claim_C7_witness :
    (attemptDownload cfgEx noCookie "u" "k" "ios"
      ⟨⟨0, true⟩, false, 0, some 0, true⟩).result
      = .error "Downloaded file is empty" ∧
    ((attemptDownload cfgEx noCookie "u" "k" "ios"
      ⟨⟨0, true⟩, false, 0, some 0, true⟩).logs = [.ytdlpError "u" "ios" "k"] ∧
     (attemptDownload cfgEx noCookie "u" "k" "ios" badEnv).logs
      = [.ytdlpError "u" "ios" "k"]) ∧
    ((attemptDownload cfgEx noCookie "u" "k" "ios"
      ⟨⟨0, true⟩, false, 0, some 0, true⟩).tempFileAfter = none ∧
     (attemptDownload cfgEx noCookie "u" "k" "ios" badEnv).tempFileAfter = none) ∧
    ((attemptDownload cfgEx noCookie "u" "k" "ios"
      ⟨⟨0, true⟩, false, 0, some 0, true⟩).uploads = [] ∧
     (attemptDownload cfgEx noCookie "u" "k" "ios" badEnv).uploads = []) ∧
    ((attemptDownload cfgEx noCookie "u" "k" "ios"
      ⟨⟨0, true⟩, false, 0, some 0, true⟩).uploadsStarted = [] ∧
     (attemptDownload cfgEx noCookie "u" "k" "ios" badEnv).uploadsStarted = []) :=
  claim_C7 cfgEx noCookie "u" "k" "ios"
    ⟨⟨0, true⟩, false, 0, some 0, true⟩ badEnv rfl rfl rfl rfl (by decide)

/-! ### C3 — idempotent fast path -/

theorem downloadToS3_first_ok (cfg : Config) (cst : CookieState) (u k : String)
    (envs : Nat → AttemptEnv) (hok : attemptSucceeds (envs 0) = true) :
    downloadToS3 cfg cst u k envs =
      { result := .ok (),
        cookie := (ensureCookieFileIfConfigured cfg cst (envs 0).cookieEnv).1,
        cookieReads := (ensureCookieFileIfConfigured cfg cst (envs 0).cookieEnv).2,
        subprocess := ["ios"], uploads := [(k, "ios")],
        uploadsStarted := [(k, "ios")], logs := [] } := by
  show fetchLoop cfg u k envs clientStrategies 0 cst = _
  rw [show clientStrategies = "ios" :: ["ios,web", "web", "android_creator"] from rfl]
  exact fetchLoop_ok_step cfg u k envs "ios" _ 0 cst hok

/-- C3: running the pipeline for an id with no prior record, where the
first run's fetch succeeds and there is no concurrent writer, leaves
exactly one completion record (present at the id, all other keys
untouched); a second run of the same item then takes the fast-path
skip: its table is unchanged, it spawns zero extractor subprocesses,
and it terminates in the skip state regardless of its environment. -/
theorem claim_C3 (cfg : Config) (st : HState) (mid v t : String)
    (env1 env2 : ItemEnv)
    (hv : v ≠ "") (h0 : st.table v = none)
    (hok : attemptSucceeds (env1.attemptEnvs 0) = true)
    (hI : env1.interference = none) :
    ((processRecord cfg ⟨mid, .object (some v) (some t)⟩ env1 st).1.table v).isSome ∧
    (∀ w, w ≠ v →
      (processRecord cfg ⟨mid, .object (some v) (some t)⟩ env1 st).1.table w
        = st.table w) ∧
    (processRecord cfg ⟨mid, .object (some v) (some t)⟩ env2
        (processRecord cfg ⟨mid, .object (some v) (some t)⟩ env1 st).1).1.table
      = (processRecord cfg ⟨mid, .object (some v) (some t)⟩ env1 st).1.table ∧
    (processRecord cfg ⟨mid, .object (some v) (some t)⟩ env2
        (processRecord cfg ⟨mid, .object (some v) (some t)⟩ env1 st).1).1.subprocess
      = (processRecord cfg ⟨mid, .object (some v) (some t)⟩ env1 st).1.subprocess ∧
    (processRecord cfg ⟨mid, .object (some v) (some t)⟩ env2
        (processRecord cfg ⟨mid, .object (some v) (some t)⟩ env1 st).1).2
      = .nextRecord := by
  have hd := downloadToS3_first_ok cfg st.cookie (videoUrl v) (makeS3Key t v)
    env1.attemptEnvs hok
  have hp1 : (processRecord cfg ⟨mid, .object (some v) (some t)⟩ env1 st).1.table v
      = some { title := t, s3Key := makeS3Key t v, s3Bucket := cfg.bucketName,
               downloadedAt := env1.nowIso } := by
    simp [processRecord, videoIdFalsy, hv, h0, hd, hI, applyInterference, insertRecord]
  refine ⟨?_, ?_, ?_, ?_, ?_⟩
  · rw [hp1]; rfl
  · intro w hw
    simp [processRecord, videoIdFalsy, hv, h0, hd, hI, applyInterference,
      insertRecord, hw]
  · generalize hq : (processRecord cfg ⟨mid, .object (some v) (some t)⟩ env1 st).1
      = p1 at hp1 ⊢
    simp [processRecord, videoIdFalsy, hv, hp1]
  · generalize hq : (processRecord cfg ⟨mid, .object (some v) (some t)⟩ env1 st).1
      = p1 at hp1 ⊢
    simp [processRecord, videoIdFalsy, hv, hp1]
  · generalize hq : (processRecord cfg ⟨mid, .object (some v) (some t)⟩ env1 st).1
      = p1 at hp1 ⊢
    simp [processRecord, videoIdFalsy, hv, hp1]

/-- C3 witness: a fresh id is recorded by the first run; the second run
changes nothing and spawns no subprocess. -/
theorem claim_C3_witness :
    ((processRecord cfgEx ⟨"m1", .object (some "vid1") (some "My Title")⟩
        ⟨fun _ => goodEnv, none, "now"⟩ st0Ex).1.table "vid1").isSome ∧
    (processRecord cfgEx ⟨"m1", .object (some "vid1") (some "My Title")⟩
        ⟨fun _ => badEnv, none, "later"⟩
        (processRecord cfgEx ⟨"m1", .object (some "vid1") (some "My Title")⟩
          ⟨fun _ => goodEnv, none, "now"⟩ st0Ex).1).1.subprocess
      = (processRecord cfgEx ⟨"m1", .object (some "vid1") (some "My Title")⟩
          ⟨fun _ => goodEnv, none, "now"⟩ st0Ex).1.subprocess ∧
    (processRecord cfgEx ⟨"m1", .object (some "vid1") (some "My Title")⟩
        ⟨fun _ => badEnv, none, "later"⟩
        (processRecord cfgEx ⟨"m1", .object (some "vid1") (some "My Title")⟩
          ⟨fun _ => goodEnv, none, "now"⟩ st0Ex).1).2 = .nextRecord :=
  ⟨(claim_C3 cfgEx st0Ex "m1" "vid1" "My Title" ⟨fun _ => goodEnv, none, "now"⟩
      ⟨fun _ => badEnv, none, "later"⟩ (by decide) rfl
      (by decide : attemptSucceeds goodEnv = true) rfl).1,
   (claim_C3 cfgEx st0Ex "m1" "vid1" "My Title" ⟨fun _ => goodEnv, none, "now"⟩
      ⟨fun _ => badEnv, none, "later"⟩ (by decide) rfl
      (by decide : attemptSucceeds goodEnv = true) rfl).2.2.2.1,
   (claim_C3 cfgEx st0Ex "m1" "vid1" "My Title" ⟨fun _ => goodEnv, none, "now"⟩
      ⟨fun _ => badEnv, none, "later"⟩ (by decide) rfl
      (by decide : attemptSucceeds goodEnv = true) rfl).2.2.2.2⟩

/-! ### C1 — what the handler does when the conditional insert loses a race -/

/-- C1 counterexample: a concrete item whose fetch succeeds but whose
conditional insert hits an already-present record (a concurrent writer
landed between the `GetCommand` and the `PutCommand`).  The handler's
generic per-item `catch` fires: the `DownloadFailures` counter is
incremented, a `DownloadError` event is logged, and the success path is
not taken — the "already recorded" condition is *not* distinguished
from other errors, contradicting the claim. -/
theorem claim_C1_counterexample :
    (processRecord cfgEx ⟨"m1", .object (some "vid1") (some "My Title")⟩
      ⟨fun _ => goodEnv, some raceItem, "now"⟩ st0Ex).1.downloadFailures = 1 ∧
    (processRecord cfgEx ⟨"m1", .object (some "vid1") (some "My Title")⟩
      ⟨fun _ => goodEnv, some raceItem, "now"⟩ st0Ex).1.videosDownloaded = 0 ∧
    (processRecord cfgEx ⟨"m1", .object (some "vid1") (some "My Title")⟩
      ⟨fun _ => goodEnv, some raceItem, "now"⟩ st0Ex).1.logs
      = [.downloadError "vid1" "m1"] := by
  decide

/-- C1 (amended): when the fetch succeeds and the conditional insert
fails because a record for the id already exists, the handler routes
the `ConditionalCheckFailedException` through the generic per-item
`catch`: the failure counter is incremented, a `DownloadError` is
logged, the success metric is not emitted, and the item ends in the
failed state — while the store still holds exactly the concurrent
writer's single record (the conditional write prevents a duplicate)
and the batch loop moves on to the next record. -/
theorem claim_C1_amended (cfg : Config) (st : HState) (mid v t : String)
    (env : ItemEnv) (itm : StoredItem)
    (hv : v ≠ "") (h0 : st.table v = none)
    (hok : attemptSucceeds (env.attemptEnvs 0) = true)
    (hI : env.interference = some itm) :
    (processRecord cfg ⟨mid, .object (some v) (some t)⟩ env st).1.downloadFailures
      = st.downloadFailures + 1 ∧
    (processRecord cfg ⟨mid, .object (some v) (some t)⟩ env st).1.videosDownloaded
      = st.videosDownloaded ∧
    (processRecord cfg ⟨mid, .object (some v) (some t)⟩ env st).1.logs
      = st.logs ++ [.downloadError v mid] ∧
    (processRecord cfg ⟨mid, .object (some v) (some t)⟩ env st).1.table v
      = some itm ∧
    (∀ w, w ≠ v →
      (processRecord cfg ⟨mid, .object (some v) (some t)⟩ env st).1.table w
        = st.table w) ∧
    (processRecord cfg ⟨mid, .object (some v) (some t)⟩ env st).2
      = .nextRecord := by
  have hd := downloadToS3_first_ok cfg st.cookie (videoUrl v) (makeS3Key t v)
    env.attemptEnvs hok
  refine ⟨?_, ?_, ?_, ?_, ?_, ?_⟩
  · simp [processRecord, videoIdFalsy, hv, h0, hd, hI, applyInterference,
      insertRecord, catchItemError]
  · simp [processRecord, videoIdFalsy, hv, h0, hd, hI, applyInterference,
      insertRecord, catchItemError]
  · simp [processRecord, videoIdFalsy, hv, h0, hd, hI, applyInterference,
      insertRecord, catchItemError]
  · simp [processRecord, videoIdFalsy, hv, h0, hd, hI, applyInterference,
      insertRecord, catchItemError]
  · intro w hw
    simp [processRecord, videoIdFalsy, hv, h0, hd, hI, applyInterference,
      insertRecord, catchItemError, hw]
  · simp [processRecord, videoIdFalsy, hv, h0, hd, hI, applyInterference,
      insertRecord, catchItemError]

/-- C1 witness: the losing invocation counts one failure, keeps the
concurrent writer's record at the id, and leaves other keys empty. -/
theorem claim_C1_witness :
    (processRecord cfgEx ⟨"m1", .object (some "vid1") (some "My Title")⟩
      ⟨fun _ => goodEnv, some raceItem, "now"⟩ st0Ex).1.downloadFailures
      = st0Ex.downloadFailures + 1 ∧
    (processRecord cfgEx ⟨"m1", .object (some "vid1") (some "My Title")⟩
      ⟨fun _ => goodEnv, some raceItem, "now"⟩ st0Ex).1.table "vid1"
      = some raceItem ∧
    (processRecord cfgEx ⟨"m1", .object (some "vid1") (some "My Title")⟩
      ⟨fun _ => goodEnv, some raceItem, "now"⟩ st0Ex).1.table "other" = none :=
  ⟨(claim_C1_amended cfgEx st0Ex "m1" "vid1" "My Title"
      ⟨fun _ => goodEnv, some raceItem, "now"⟩ raceItem (by decide) rfl
      (by decide : attemptSucceeds goodEnv = true) rfl).1,
   (claim_C1_amended cfgEx st0Ex "m1" "vid1" "My Title"
      ⟨fun _ => goodEnv, some raceItem, "now"⟩ raceItem (by decide) rfl
      (by decide : attemptSucceeds goodEnv = true) rfl).2.2.2.1,
   (claim_C1_amended cfgEx st0Ex "m1" "vid1" "My Title"
      ⟨fun _ => goodEnv, some raceItem, "now"⟩ raceItem (by decide) rfl
      (by decide : attemptSucceeds goodEnv = true) rfl).2.2.2.2.1 "other"
      (by decide)⟩

/-! ### C10 — missing title fails before any fetch -/

/-- C10: a parseable message with a `videoId` but no `title`, for an id
with no prior record, always ends in the failed state before any fetch:
the destructured `title` local is `undefined`, `title.replace` throws,
the per-item `catch` increments the failure counter and logs a
`DownloadError`, no subprocess is spawned, no upload occurs, no record
is written, and the loop continues with the next record. -/
theorem claim_C10 (cfg : Config) (st : HState) (mid v now : String)
    (envs : Nat → AttemptEnv) (intf : Option StoredItem)
    (hv : v ≠ "") (h0 : st.table v = none) :
    (processRecord cfg ⟨mid, .object (some v) none⟩ ⟨envs, intf, now⟩ st).1.downloadFailures
      = st.downloadFailures + 1 ∧
    (processRecord cfg ⟨mid, .object (some v) none⟩ ⟨envs, intf, now⟩ st).1.logs
      = st.logs ++ [.downloadError v mid] ∧
    (processRecord cfg ⟨mid, .object (some v) none⟩ ⟨envs, intf, now⟩ st).1.subprocess
      = st.subprocess ∧
    (processRecord cfg ⟨mid, .object (some v) none⟩ ⟨envs, intf, now⟩ st).1.uploads
      = st.uploads ∧
    (processRecord cfg ⟨mid, .object (some v) none⟩ ⟨envs, intf, now⟩ st).1.table
      = st.table ∧
    (processRecord cfg ⟨mid, .object (some v) none⟩ ⟨envs, intf, now⟩ st).1.videosDownloaded
      = st.videosDownloaded ∧
    (processRecord cfg ⟨mid, .object (some v) none⟩ ⟨envs, intf, now⟩ st).2
      = .nextRecord := by
  refine ⟨?_, ?_, ?_, ?_, ?_, ?_, ?_⟩ <;>
    simp [processRecord, videoIdFalsy, hv, h0, catchItemError]

/-- C10 witness: a concrete titleless message for a fresh id. -/
theorem claim_C10_witness :
    (processRecord cfgEx ⟨"m1", .object (some "vid1") none⟩
      ⟨fun _ => goodEnv, none, "now"⟩ st0Ex).1.downloadFailures
      = st0Ex.downloadFailures + 1 ∧
    (processRecord cfgEx ⟨"m1", .object (some "vid1") none⟩
      ⟨fun _ => goodEnv, none, "now"⟩ st0Ex).1.subprocess = st0Ex.subprocess ∧
    (processRecord cfgEx ⟨"m1", .object (some "vid1") none⟩
      ⟨fun _ => goodEnv, none, "now"⟩ st0Ex).2 = .nextRecord :=
  ⟨(claim_C10 cfgEx st0Ex "m1" "vid1" "now" (fun _ => goodEnv) none
      (by decide) rfl).1,
   (claim_C10 cfgEx st0Ex "m1" "vid1" "now" (fun _ => goodEnv) none
      (by decide) rfl).2.2.1,
   (claim_C10 cfgEx st0Ex "m1" "vid1" "now" (fun _ => goodEnv) none
      (by decide) rfl).2.2.2.2.2.2⟩

/-! ### C2 — a missing-identifier message aborts the whole batch -/

/-- A record whose body parses to an object without a `videoId`. -/
def recInvalidEx : SqsRecord := ⟨"m1", .object none (some "Title A")⟩

/-- A well-formed record for a fresh id. -/
def recValidEx : SqsRecord := ⟨"m2", .object (some "vid2") (some "Title B")⟩

/-- An item environment in which every attempt would succeed. -/
def envOkEx : ItemEnv := ⟨fun _ => goodEnv, none, "now"⟩

/-- C2: processing a 2-record batch whose first message lacks `videoId`
logs `InvalidMessage` and then executes the handler-level `return`
(youtube-downloader.ts:235): the second, well-formed record is never
processed — no subprocess, no record, no skip, no failure count — and
`BatchComplete` is never logged.  This contradicts the claim that the
malformed item is skipped and siblings still reach terminal states. -/
theorem claim_C2_divergence :
    (handler cfgEx [(recInvalidEx, envOkEx), (recValidEx, envOkEx)] st0Ex).logs
      = [.batchStart 2, .invalidMessage "m1"] ∧
    (handler cfgEx [(recInvalidEx, envOkEx), (recValidEx, envOkEx)] st0Ex).table "vid2"
      = none ∧
    (handler cfgEx [(recInvalidEx, envOkEx), (recValidEx, envOkEx)] st0Ex).subprocess
      = [] ∧
    (handler cfgEx [(recInvalidEx, envOkEx), (recValidEx, envOkEx)] st0Ex).downloadFailures
      = 0 ∧
    (handler cfgEx [(recInvalidEx, envOkEx), (recValidEx, envOkEx)] st0Ex).videosDownloaded
      = 0 := by
  decide

end YtSync
